import Mathlib

/-!
Verification of the three-body simulation core of `3bodyproblem.py`.

The embedding covers the equations-of-motion evaluator
`three_body_equations` / `compute_acceleration`, the integration entry
point `run_simulation`, the reference evaluation-time grid built with
`np.linspace(0, 100, 10000)`, and the playback indexing performed by the
animation callback `update` (modulo frame indexing and trail slicing).
Floating-point scalars are modelled by real numbers; evaluation times by
rationals.
-/

namespace ThreeBody

/-- Embedding of `np.linspace` with the endpoint included: `num` points from
`start` to `stop` with step `(stop - start) / (num - 1)`; used at
3bodyproblem.py:64 as `np.linspace(0, 100, 10000)`. -/
def linspace (start stop : ℚ) (num : ℕ) : List ℚ :=
  (List.range num).map (fun (i : ℕ) => start + (i : ℚ) * (stop - start) / ((num : ℚ) - 1))

/-- Time span hard-coded by `start_simulation` (3bodyproblem.py:63). -/
def t_span_ref : ℚ × ℚ := (0, 100)

/-- Evaluation grid hard-coded by `start_simulation` (3bodyproblem.py:64). -/
def t_eval_ref : List ℚ := linspace 0 100 10000

noncomputable section

/-- State vector: 12 scalar components laid out as
`[r1x, r1y, r2x, r2y, r3x, r3y, v1x, v1y, v2x, v2y, v3x, v3y]`. -/
abbrev State := Fin 12 → ℝ

/-- Euclidean norm of a 2-vector, as `np.linalg.norm` computes it. -/
def norm2 (v : ℝ × ℝ) : ℝ := Real.sqrt (v.1 ^ 2 + v.2 ^ 2)

/-- Embedding of `compute_acceleration` (3bodyproblem.py:13-14):
`mj * (rj - ri) / np.linalg.norm(rj - ri) ** 3`, componentwise. The real
division models the float quotient faithfully wherever the denominator is
nonzero; at coincident bodies the float code divides 0 by 0 and produces a
non-finite value, which real arithmetic cannot represent, so no theorem
below relies on the value of this division at a singular input. -/
def compute_acceleration (ri rj : ℝ × ℝ) (mj : ℝ) : ℝ × ℝ :=
  (mj * (rj - ri).1 / norm2 (rj - ri) ^ 3, mj * (rj - ri).2 / norm2 (rj - ri) ^ 3)

/-- Position of body 1: `y[:2]` (3bodyproblem.py:10). -/
def r1 (y : State) : ℝ × ℝ := (y 0, y 1)

/-- Position of body 2: `y[2:4]` (3bodyproblem.py:10). -/
def r2 (y : State) : ℝ × ℝ := (y 2, y 3)

/-- Position of body 3: `y[4:6]` (3bodyproblem.py:10). -/
def r3 (y : State) : ℝ × ℝ := (y 4, y 5)

/-- Velocity of body 1: `y[6:8]` (3bodyproblem.py:11). -/
def v1 (y : State) : ℝ × ℝ := (y 6, y 7)

/-- Velocity of body 2: `y[8:10]` (3bodyproblem.py:11). -/
def v2 (y : State) : ℝ × ℝ := (y 8, y 9)

/-- Velocity of body 3: `y[10:12]` (3bodyproblem.py:11). -/
def v3 (y : State) : ℝ × ℝ := (y 10, y 11)

/-- Total acceleration on body 1 (3bodyproblem.py:16). -/
def a1 (y : State) (masses : Fin 3 → ℝ) : ℝ × ℝ :=
  compute_acceleration (r1 y) (r2 y) (masses 1) + compute_acceleration (r1 y) (r3 y) (masses 2)

/-- Total acceleration on body 2 (3bodyproblem.py:17). -/
def a2 (y : State) (masses : Fin 3 → ℝ) : ℝ × ℝ :=
  compute_acceleration (r2 y) (r1 y) (masses 0) + compute_acceleration (r2 y) (r3 y) (masses 2)

/-- Total acceleration on body 3 (3bodyproblem.py:18). -/
def a3 (y : State) (masses : Fin 3 → ℝ) : ℝ × ℝ :=
  compute_acceleration (r3 y) (r1 y) (masses 0) + compute_acceleration (r3 y) (r2 y) (masses 1)

/-- Embedding of `three_body_equations` (3bodyproblem.py:9-20): the returned
vector is `np.concatenate([v1, v2, v3, a1, a2, a3])`; the time argument `t`
is accepted for solver-interface compatibility and unused. -/
def three_body_equations (t : ℚ) (y : State) (masses : Fin 3 → ℝ) : State :=
  ![(v1 y).1, (v1 y).2, (v2 y).1, (v2 y).2, (v3 y).1, (v3 y).2,
    (a1 y masses).1, (a1 y masses).2, (a2 y masses).1, (a2 y masses).2,
    (a3 y masses).1, (a3 y masses).2]

/-- Positions of the three bodies, indexed by body. -/
def pos (y : State) : Fin 3 → ℝ × ℝ := ![r1 y, r2 y, r3 y]

/-- Specification formula of section 4.1 steps 2-3: the total acceleration on
body `i` is the sum over the other bodies `j ≠ i` of
`masses[j] * (r_j - r_i) / |r_j - r_i|^3` (gravitational constant 1). -/
def accel_spec (y : State) (masses : Fin 3 → ℝ) (i : Fin 3) : ℝ × ℝ :=
  ∑ j ∈ Finset.univ.filter (fun j => j ≠ i),
    (masses j * (pos y j - pos y i).1 / norm2 (pos y j - pos y i) ^ 3,
     masses j * (pos y j - pos y i).2 / norm2 (pos y j - pos y i) ^ 3)

/-- Modelled from the spec: `scipy.integrate.solve_ivp` is external library
code, not part of this repository's source. Per section 4.2 the solver
advances the state from one time to the next along the derivative field; the
adaptive internal stepping is abstracted as a single explicit derivative step
per grid interval (a zero-length interval leaves the state unchanged). This
models only a successfully completed step: the failure of the library's
adaptive step control on singular or non-finite derivatives is a
floating-point behavior with no faithful counterpart here, and no theorem
below asserts a successful outcome at such inputs. -/
def advance (f : ℚ → State → State) (t0 t : ℚ) (y : State) : State :=
  if t = t0 then y else fun k => y k + ((t - t0 : ℚ) : ℝ) * f t0 y k

/-- Modelled from the spec: the list of states reported at each requested
evaluation time, each obtained by advancing from the previous time. -/
def odeStates (f : ℚ → State → State) : ℚ → State → List ℚ → List State
  | _, _, [] => []
  | t0, y, t :: ts => advance f t0 t y :: odeStates f t (advance f t0 t y) ts

/-- Modelled from the spec: `solve_ivp` returns the evaluation times together
with one state per evaluation time (`result.t`, `result.y`). This is the
success path of the library call; the eager input validation the library
performs before integrating is modelled separately by `solve_ivp_v`, and
early termination of a failing integration is not modelled (see `advance`). -/
def solve_ivp (f : ℚ → State → State) (t_span : ℚ × ℚ) (y0 : State)
    (t_eval : List ℚ) : List ℚ × List State :=
  (t_eval, odeStates f t_span.1 y0 t_eval)

/-- Embedding of `run_simulation` (3bodyproblem.py:22-26): it forwards its
arguments unchecked to the solver and returns `result.t, result.y` — there is
no input validation, no error branch and no diagnostic flag in the source. -/
def run_simulation (masses : Fin 3 → ℝ) (initial_conditions : State)
    (t_span : ℚ × ℚ) (t_eval : List ℚ) : List ℚ × List State :=
  solve_ivp (fun t y => three_body_equations t y masses) t_span initial_conditions t_eval

/-- Consecutive differences of a list, as `np.diff` computes them. -/
def diffs : List ℚ → List ℚ
  | [] => []
  | [_] => []
  | a :: b :: rest => (b - a) :: diffs (b :: rest)

/-- Modelled from the spec: the eager configuration-error rejection of
section 7 as the external `scipy.integrate.solve_ivp` (absent from src/)
actually performs it before any integration begins. With `t0, tf = t_span`,
the call raises `ValueError` when some evaluation time lies outside
`[min t0 tf, max t0 tf]`, or when the evaluation times are not strictly
monotone in the direction of integration (`np.diff(t_eval)` has an entry
`<= 0` while `tf > t0`, or an entry `>= 0` while `tf < t0`); otherwise it
proceeds to the integration modelled by `solve_ivp`. The masses never reach
this validation. -/
def solve_ivp_v (f : ℚ → State → State) (t_span : ℚ × ℚ) (y0 : State)
    (t_eval : List ℚ) : Except String (List ℚ × List State) :=
  if ∃ t ∈ t_eval, t < min t_span.1 t_span.2 ∨ max t_span.1 t_span.2 < t then
    Except.error "ValueError: values in t_eval are not within t_span"
  else if (t_span.1 < t_span.2 ∧ ∃ d ∈ diffs t_eval, d ≤ 0)
      ∨ (t_span.2 < t_span.1 ∧ ∃ d ∈ diffs t_eval, 0 ≤ d) then
    Except.error "ValueError: values in t_eval are not properly sorted"
  else
    Except.ok (solve_ivp f t_span y0 t_eval)

/-- Embedding of `run_simulation` (3bodyproblem.py:22-26) over the validated
solver model: the wrapper itself adds no checks of its own, so any eager
rejection is exactly the solver's input validation. -/
def run_simulation_v (masses : Fin 3 → ℝ) (initial_conditions : State)
    (t_span : ℚ × ℚ) (t_eval : List ℚ) : Except String (List ℚ × List State) :=
  solve_ivp_v (fun t y => three_body_equations t y masses) t_span initial_conditions t_eval

/-- Embedding of the frame indexing in `update` (3bodyproblem.py:80-83):
`idx = frame % len(t)` and the rendered state is the trajectory column at
`idx` (the times list and the trajectory have equal length). -/
def sample (traj : List State) (frame : ℕ) (h : 0 < traj.length) : State :=
  traj.get ⟨frame % traj.length, Nat.mod_lt frame h⟩

/-- Position of body `i` inside a state: components `2i` and `2i + 1`
(rows `y[2*i]` and `y[2*i+1]` in the source). -/
def posOf (i : Fin 3) (s : State) : ℝ × ℝ :=
  (s ⟨2 * i.val, by have := i.isLt; omega⟩, s ⟨2 * i.val + 1, by have := i.isLt; omega⟩)

/-- Embedding of the trail update (3bodyproblem.py:85): the rendered trail of
body `i` at a frame is `y[2*i, :idx+1], y[2*i+1, :idx+1]` with
`idx = frame % len(t)`. -/
def trail (traj : List State) (i : Fin 3) (frame : ℕ) : List (ℝ × ℝ) :=
  (traj.take (frame % traj.length + 1)).map (posOf i)

/-- Specification slice of section 4.3: the position history of body `i` from
index 0 up to the frame index, inclusive. -/
def trail_slice_spec (traj : List State) (i : Fin 3) (frame : ℕ) : List (ℝ × ℝ) :=
  (traj.take (frame + 1)).map (posOf i)

/-- Concrete scenario state of section 8: positions (-1,0), (1,0), (0,1) and
velocities (0,1), (0,-1), (1,0). -/
def yW : State := ![-1, 0, 1, 0, 0, 1, 0, 1, 0, -1, 1, 0]

/-- Unit masses of the concrete scenario. -/
def massesW : Fin 3 → ℝ := ![1, 1, 1]

/-- State with bodies 1 and 2 coincident at the origin and body 3 at (1,0). -/
def yColl : State := ![0, 0, 0, 0, 1, 0, 0, 0, 0, 0, 0, 0]

/-- Mass vector with a non-positive first mass. -/
def massesNeg : Fin 3 → ℝ := ![-1, 1, 1]

/-- Constant-zero state used as playback test data. -/
def sW0 : State := fun _ => 0

/-- Constant-one state used as playback test data. -/
def sW1 : State := fun _ => 1

/-- Two-entry trajectory used as playback test data. -/
def trajW : List State := [sW0, sW1]

end

/-- Helper: the Euclidean norm is symmetric under swapping the endpoints of a
difference vector. -/
theorem norm2_sub_comm (a b : ℝ × ℝ) : norm2 (a - b) = norm2 (b - a) := by
  simp only [norm2, Prod.fst_sub, Prod.snd_sub]
  congr 1
  ring

/-- Helper: the modelled solver reports exactly one state per evaluation
time. -/
theorem odeStates_length (f : ℚ → State → State) (ts : List ℚ) :
    ∀ (t0 : ℚ) (y : State), (odeStates f t0 y ts).length = ts.length := by
  induction ts with
  | nil => intro t0 y; rfl
  | cons t ts ih => intro t0 y; simp [odeStates, ih]

/-- Helper: a list whose entries are all equal has all consecutive
differences zero. -/
theorem diffs_eq_zero_of_const (c : ℚ) :
    ∀ (te : List ℚ), (∀ t ∈ te, t = c) → ∀ d ∈ diffs te, d = 0 := by
  intro te
  induction te with
  | nil => intro _ d hd; simp [diffs] at hd
  | cons a rest ih =>
    cases rest with
    | nil => intro _ d hd; simp [diffs] at hd
    | cons b rest2 =>
      intro hall d hd
      rw [diffs, List.mem_cons] at hd
      rcases hd with hd | hd
      · have ha : a = c := hall a (by simp)
        have hb : b = c := hall b (by simp)
        rw [hd, ha, hb, sub_self]
      · exact ih (fun t ht => hall t (List.mem_cons_of_mem a ht)) d hd

/-- Helper: when both validation checks pass, the validated solver defers to
the success-path model. -/
theorem solve_ivp_v_ok (f : ℚ → State → State) (ts : ℚ × ℚ) (y0 : State)
    (te : List ℚ)
    (h1 : ¬ ∃ t ∈ te, t < min ts.1 ts.2 ∨ max ts.1 ts.2 < t)
    (h2 : ¬ ((ts.1 < ts.2 ∧ ∃ d ∈ diffs te, d ≤ 0)
      ∨ (ts.2 < ts.1 ∧ ∃ d ∈ diffs te, 0 ≤ d))) :
    solve_ivp_v f ts y0 te = Except.ok (solve_ivp f ts y0 te) := by
  unfold solve_ivp_v
  rw [if_neg h1, if_neg h2]

/-- Helper: body positions by index. -/
theorem pos_zero (y : State) : pos y 0 = r1 y := rfl

/-- Helper: body positions by index. -/
theorem pos_one (y : State) : pos y 1 = r2 y := rfl

/-- Helper: body positions by index. -/
theorem pos_two (y : State) : pos y 2 = r3 y := rfl

/-- C1: for every state and mass vector, each per-body acceleration computed
by the code (`a1`, `a2`, `a3`, each the sum of two `compute_acceleration`
contributions, 3bodyproblem.py:16-18) equals the specification formula
summing `masses[j] * (r_j - r_i) / |r_j - r_i|^3` over the two other
bodies. -/
theorem c1_acceleration_matches_spec (y : State) (masses : Fin 3 → ℝ) :
    a1 y masses = accel_spec y masses 0 ∧
    a2 y masses = accel_spec y masses 1 ∧
    a3 y masses = accel_spec y masses 2 := by
  refine ⟨?_, ?_, ?_⟩
  · rw [accel_spec, Finset.sum_filter, Fin.sum_univ_three,
      if_neg (by decide), if_pos (by decide), if_pos (by decide), zero_add]
    simp [a1, compute_acceleration, pos_zero, pos_one, pos_two, Prod.mk_add_mk]
  · rw [accel_spec, Finset.sum_filter, Fin.sum_univ_three,
      if_pos (by decide), if_neg (by decide), if_pos (by decide), add_zero]
    simp [a2, compute_acceleration, pos_zero, pos_one, pos_two, Prod.mk_add_mk]
  · rw [accel_spec, Finset.sum_filter, Fin.sum_univ_three,
      if_pos (by decide), if_pos (by decide), if_neg (by decide), add_zero]
    simp [a3, compute_acceleration, pos_zero, pos_one, pos_two, Prod.mk_add_mk]

/-- C2: the evaluator returns the concatenation `[v1, v2, v3, a1, a2, a3]`:
output components 0-5 equal input components 6-11 (velocity pass-through) and
output components 6-11 are the computed accelerations
(3bodyproblem.py:9-20). -/
theorem c2_output_layout (t : ℚ) (y : State) (masses : Fin 3 → ℝ) :
    three_body_equations t y masses 0 = y 6 ∧
    three_body_equations t y masses 1 = y 7 ∧
    three_body_equations t y masses 2 = y 8 ∧
    three_body_equations t y masses 3 = y 9 ∧
    three_body_equations t y masses 4 = y 10 ∧
    three_body_equations t y masses 5 = y 11 ∧
    three_body_equations t y masses 6 = (a1 y masses).1 ∧
    three_body_equations t y masses 7 = (a1 y masses).2 ∧
    three_body_equations t y masses 8 = (a2 y masses).1 ∧
    three_body_equations t y masses 9 = (a2 y masses).2 ∧
    three_body_equations t y masses 10 = (a3 y masses).1 ∧
    three_body_equations t y masses 11 = (a3 y masses).2 :=
  ⟨rfl, rfl, rfl, rfl, rfl, rfl, rfl, rfl, rfl, rfl, rfl, rfl⟩

/-- C10: with the three body positions pairwise distinct, the mass-weighted
accelerations of the evaluator sum to zero in exact real arithmetic — the
derivative of total momentum vanishes — by antisymmetry of the pairwise
force terms (3bodyproblem.py:13-20). -/
theorem c10_momentum_derivative_zero (y : State) (masses : Fin 3 → ℝ)
    (h12 : r1 y ≠ r2 y) (h13 : r1 y ≠ r3 y) (h23 : r2 y ≠ r3 y) :
    masses 0 * (a1 y masses).1 + masses 1 * (a2 y masses).1
      + masses 2 * (a3 y masses).1 = 0 ∧
    masses 0 * (a1 y masses).2 + masses 1 * (a2 y masses).2
      + masses 2 * (a3 y masses).2 = 0 := by
  have e12 : norm2 (r1 y - r2 y) = norm2 (r2 y - r1 y) := norm2_sub_comm _ _
  have e13 : norm2 (r1 y - r3 y) = norm2 (r3 y - r1 y) := norm2_sub_comm _ _
  have e23 : norm2 (r2 y - r3 y) = norm2 (r3 y - r2 y) := norm2_sub_comm _ _
  constructor <;>
  · simp only [a1, a2, a3, compute_acceleration, Prod.fst_add, Prod.snd_add,
      Prod.fst_sub, Prod.snd_sub, e12, e13, e23]
    ring

/-- Witness for C10 at the concrete scenario of section 8. -/
theorem c10_momentum_derivative_zero_witness :
    (r1 yW ≠ r2 yW) ∧ (r1 yW ≠ r3 yW) ∧ (r2 yW ≠ r3 yW) ∧
    (massesW 0 * (a1 yW massesW).1 + massesW 1 * (a2 yW massesW).1
      + massesW 2 * (a3 yW massesW).1 = 0 ∧
     massesW 0 * (a1 yW massesW).2 + massesW 1 * (a2 yW massesW).2
      + massesW 2 * (a3 yW massesW).2 = 0) := by
  have h12 : r1 yW ≠ r2 yW := by
    simp only [show r1 yW = ((-1 : ℝ), (0 : ℝ)) from rfl,
      show r2 yW = ((1 : ℝ), (0 : ℝ)) from rfl, ne_eq, Prod.mk.injEq]
    norm_num
  have h13 : r1 yW ≠ r3 yW := by
    simp only [show r1 yW = ((-1 : ℝ), (0 : ℝ)) from rfl,
      show r3 yW = ((0 : ℝ), (1 : ℝ)) from rfl, ne_eq, Prod.mk.injEq]
    norm_num
  have h23 : r2 yW ≠ r3 yW := by
    simp only [show r2 yW = ((1 : ℝ), (0 : ℝ)) from rfl,
      show r3 yW = ((0 : ℝ), (1 : ℝ)) from rfl, ne_eq, Prod.mk.injEq]
    norm_num
  exact ⟨h12, h13, h23, c10_momentum_derivative_zero yW massesW h12 h13 h23⟩

/-- C5: for every run of the integration wrapper, the returned times equal the
requested evaluation times and the trajectory holds exactly one state vector
(a 12-component `State`) per reported time, in the same order
(3bodyproblem.py:22-26; solver modelled from the spec). -/
theorem c5_output_shape (masses : Fin 3 → ℝ) (ic : State) (ts : ℚ × ℚ)
    (te : List ℚ) :
    (run_simulation masses ic ts te).1 = te ∧
    (run_simulation masses ic ts te).2.length = te.length :=
  ⟨rfl, odeStates_length _ te ts.1 ic⟩

/-- C6: when the first evaluation time equals `t_start`, the first trajectory
entry is exactly the supplied initial state (3bodyproblem.py:22-26; solver
modelled from the spec). -/
theorem c6_initial_state (masses : Fin 3 → ℝ) (ic : State) (t0 t1 : ℚ)
    (te : List ℚ) (h : te.head? = some t0) :
    (run_simulation masses ic (t0, t1) te).2.head? = some ic := by
  cases te with
  | nil => exact absurd h (by simp)
  | cons t ts =>
    have ht : t = t0 := by simpa using h
    subst ht
    simp [run_simulation, solve_ivp, odeStates, advance]

/-- Witness for C6 at a concrete configuration with first evaluation time 0.  -/
theorem c6_initial_state_witness :
    (([(0 : ℚ), 1]).head? = some 0) ∧
    (run_simulation massesW yW (0, 1) [0, 1]).2.head? = some yW :=
  ⟨rfl, c6_initial_state massesW yW 0 1 [0, 1] rfl⟩

/-- C7: playback sampling maps a frame index to the stored state at index
`frame % length` — no interpolation — hence sampling is invariant under
adding the trajectory length to the frame index (3bodyproblem.py:80-83). -/
theorem c7_sample_loops (traj : List State) (frame : ℕ) (h : 0 < traj.length) :
    sample traj frame h = traj.get ⟨frame % traj.length, Nat.mod_lt frame h⟩ ∧
    sample traj frame h = sample traj (frame + traj.length) h := by
  refine ⟨rfl, ?_⟩
  simp [sample, Nat.add_mod_right]

/-- Witness for C7 on a concrete two-entry trajectory at frame 3. -/
theorem c7_sample_loops_witness :
    0 < trajW.length ∧
    (sample trajW 3 (by simp [trajW]) =
      trajW.get ⟨3 % trajW.length, Nat.mod_lt 3 (by simp [trajW])⟩ ∧
     sample trajW 3 (by simp [trajW]) =
      sample trajW (3 + trajW.length) (by simp [trajW])) :=
  ⟨by simp [trajW], c7_sample_loops trajW 3 (by simp [trajW])⟩

/-- C8 as stated is false: on a two-entry trajectory at frame index 2 the
rendered trail is the single point at index `2 % 2 = 0`, not the full slice
from 0 to 2 — the code wraps the frame before slicing
(3bodyproblem.py:81,85). -/
theorem c8_trail_counterexample : trail trajW 0 2 ≠ trail_slice_spec trajW 0 2 := by
  intro h
  have hl := congrArg List.length h
  simp [trail, trail_slice_spec, trajW] at hl

/-- C8 amended: for every frame index strictly below the trajectory length,
the rendered trail of each body equals the slice of that body's position
history from index 0 to the frame index inclusive, derived from the
trajectory alone (for larger frame indices the code restarts the trail at
`frame % length`). -/
theorem c8_trail_in_range (traj : List State) (i : Fin 3) (frame : ℕ)
    (h : frame < traj.length) :
    trail traj i frame = trail_slice_spec traj i frame := by
  simp [trail, trail_slice_spec, Nat.mod_eq_of_lt h]

/-- Witness for the amended C8 on a concrete trajectory at an in-range
frame. -/
theorem c8_trail_in_range_witness :
    1 < trajW.length ∧ trail trajW 0 1 = trail_slice_spec trajW 0 1 :=
  ⟨by simp [trajW], c8_trail_in_range trajW 0 1 (by simp [trajW])⟩

/-- C3: the claim states the intended contract of spec sections 4.2/7/9 and
the code does not implement it. At the failing input, bodies 1 and 2
coincident, the distance is exactly 0 — below every epsilon — yet line 14
divides anyway with no guard: this theorem shows that at that input both
numerator components `mj * (rj - ri)` and the divisor
`np.linalg.norm(rj - ri) ** 3` are exactly 0, so the code's float division
is 0/0, which numpy evaluates silently to nan instead of raising any
`CollisionSingularity` domain error; the nan then defeats scipy's step
control (an empty or truncated result whose diagnostic status
`run_simulation` drops, returning bare `result.t, result.y` at lines
22-26). -/
theorem c3_singular_division_unguarded :
    massesW 1 * (r2 yColl - r1 yColl).1 = 0 ∧
    massesW 1 * (r2 yColl - r1 yColl).2 = 0 ∧
    norm2 (r2 yColl - r1 yColl) ^ 3 = 0 := by
  have h12 : r2 yColl - r1 yColl = ((0 : ℝ), (0 : ℝ)) := by
    rw [show r1 yColl = ((0 : ℝ), (0 : ℝ)) from rfl,
      show r2 yColl = ((0 : ℝ), (0 : ℝ)) from rfl]
    simp
  rw [h12]
  refine ⟨by simp, by simp, ?_⟩
  simp [norm2]

/-- C4 as stated is false: a non-positive mass is an invalid configuration
per the claim, yet the call is not rejected — the solver's eager input
validation never inspects the masses, so with a negative first mass and a
well-formed grid the call passes validation and proceeds into integration,
reporting no configuration error. -/
theorem c4_no_validation_counterexample :
    massesNeg 0 < 0 ∧
    ∃ r, run_simulation_v massesNeg yW (0, 1) [0, 1] = Except.ok r := by
  constructor
  · rw [show massesNeg 0 = (-1 : ℝ) from rfl]
    norm_num
  · show ∃ r,
      solve_ivp_v (fun t y => three_body_equations t y massesNeg) (0, 1) yW [0, 1]
        = Except.ok r
    exact ⟨_, solve_ivp_v_ok _ _ _ _ (by norm_num [min_def, max_def]) (by norm_num [diffs])⟩

/-- C4 amended: masses are never validated — for any mass vector, a grid
within the span and strictly monotone in the integration direction passes
the eager validation and the call proceeds into integration with no
configuration error; eager rejection before any integration does occur for
evaluation-time misconfigurations, reported as the solver's configuration
`ValueError`: a non-increasing grid under `t_start < t_end` is rejected, an
increasing grid of at least two points under `t_start ≥ t_end` is rejected,
and an empty grid is not rejected. -/
theorem c4_amended_validation_scope :
    (∀ (masses : Fin 3 → ℝ) (ic : State) (t0 tf : ℚ) (te : List ℚ),
      (¬ ∃ t ∈ te, t < min t0 tf ∨ max t0 tf < t) →
      (¬ ((t0 < tf ∧ ∃ d ∈ diffs te, d ≤ 0) ∨ (tf < t0 ∧ ∃ d ∈ diffs te, 0 ≤ d))) →
      ∃ r, run_simulation_v masses ic (t0, tf) te = Except.ok r) ∧
    (∀ (masses : Fin 3 → ℝ) (ic : State) (t0 tf : ℚ) (te : List ℚ),
      t0 < tf → (∃ d ∈ diffs te, d ≤ 0) →
      ∃ msg, run_simulation_v masses ic (t0, tf) te = Except.error msg) ∧
    (∀ (masses : Fin 3 → ℝ) (ic : State) (t0 tf : ℚ) (te : List ℚ),
      tf ≤ t0 → (∃ d ∈ diffs te, 0 < d) →
      ∃ msg, run_simulation_v masses ic (t0, tf) te = Except.error msg) ∧
    (∀ (masses : Fin 3 → ℝ) (ic : State) (t0 tf : ℚ),
      ∃ r, run_simulation_v masses ic (t0, tf) [] = Except.ok r) := by
  refine ⟨?_, ?_, ?_, ?_⟩
  · intro masses ic t0 tf te h1 h2
    simp only [run_simulation_v, solve_ivp_v]
    split_ifs
    exact ⟨_, rfl⟩
  · intro masses ic t0 tf te ht hd
    simp only [run_simulation_v, solve_ivp_v]
    split_ifs with hb hs
    · exact ⟨_, rfl⟩
    · exact ⟨_, rfl⟩
    · exact absurd (Or.inl ⟨ht, hd⟩) hs
  · intro masses ic t0 tf te htf hd
    simp only [run_simulation_v, solve_ivp_v]
    split_ifs with hb hs
    · exact ⟨_, rfl⟩
    · exact ⟨_, rfl⟩
    · exfalso
      obtain ⟨d, hdm, hdp⟩ := hd
      rcases lt_or_eq_of_le htf with hlt | heq
      · exact hs (Or.inr ⟨hlt, ⟨d, hdm, hdp.le⟩⟩)
      · have hconst : ∀ t ∈ te, t = t0 := by
          intro t ht
          by_contra hne
          apply hb
          refine ⟨t, ht, ?_⟩
          rw [heq]
          simpa using lt_or_gt_of_ne hne
        have hz := diffs_eq_zero_of_const t0 te hconst d hdm
        rw [hz] at hdp
        exact lt_irrefl 0 hdp
  · intro masses ic t0 tf
    show ∃ r,
      solve_ivp_v (fun t y => three_body_equations t y masses) (t0, tf) ic []
        = Except.ok r
    exact ⟨_, solve_ivp_v_ok _ _ _ _ (by simp) (by simp [diffs])⟩

/-- Witness for the amended C4: a non-increasing grid under a forward span
is rejected eagerly with a configuration error. -/
theorem c4_amended_validation_scope_witness :
    ((0 : ℚ) < 1) ∧ (∃ d ∈ diffs [(1 : ℚ), 0], d ≤ 0) ∧
    ∃ msg, run_simulation_v massesW yW (0, 1) [(1 : ℚ), 0] = Except.error msg :=
  ⟨by norm_num, ⟨-1, by norm_num [diffs], by norm_num⟩,
   c4_amended_validation_scope.2.1 massesW yW 0 1 [1, 0] (by norm_num)
     ⟨-1, by norm_num [diffs], by norm_num⟩⟩

/-- C9 as stated is false: `np.linspace(0, 100, 10000)` includes both
endpoints, so consecutive evaluation times differ by `100 / 9999`
(about 0.0100010), not `0.01`: already the second grid point is
`100 / 9999 ≠ 1 / 100` (3bodyproblem.py:64). -/
theorem c9_step_counterexample :
    t_eval_ref.get? 1 = some (100 / 9999) ∧ ((100 : ℚ) / 9999) ≠ 1 / 100 := by
  constructor
  · rw [t_eval_ref, linspace, List.get?_map, List.get?_range (by norm_num)]
    norm_num
  · norm_num

/-- C9 amended: the reference grid samples 10,000 equally spaced points over
the span (0, 100) — endpoints included, first point 0 and last point 100 —
forming a uniform grid whose step between consecutive evaluation times is
`100 / 9999` (about 0.010001), not 0.01. -/
theorem c9_amended_grid (i : ℕ) (h : i + 1 < 10000) :
    t_eval_ref.length = 10000 ∧
    t_span_ref = (0, 100) ∧
    t_eval_ref.get? 0 = some 0 ∧
    t_eval_ref.get? 9999 = some 100 ∧
    (t_eval_ref.get? (i + 1)).getD 0 - (t_eval_ref.get? i).getD 0 = 100 / 9999 := by
  refine ⟨by simp [t_eval_ref, linspace], rfl, ?_, ?_, ?_⟩
  · rw [t_eval_ref, linspace, List.get?_map, List.get?_range (by norm_num)]
    norm_num
  · rw [t_eval_ref, linspace, List.get?_map, List.get?_range (by norm_num)]
    norm_num
  · rw [t_eval_ref, linspace, List.get?_map, List.get?_range (by omega),
      List.get?_map, List.get?_range (by omega)]
    simp only [Option.map_some', Option.getD_some]
    push_cast
    ring

/-- Witness for the amended C9 at the first grid interval. -/
theorem c9_amended_grid_witness :
    (0 + 1 < 10000) ∧
    ((t_eval_ref.get? (0 + 1)).getD 0 - (t_eval_ref.get? 0).getD 0 = 100 / 9999) :=
  ⟨by norm_num, (c9_amended_grid 0 (by norm_num)).2.2.2.2⟩

end ThreeBody
